import Mathlib

/-
Shallow embedding of the coordination core of the unpod Tauri shell
(src/apps/unpod-tauri/src-tauri/src/main.rs): window activation, the
notification gateway, the badge updater, the session store commands and
the backend process supervisor. Each definition is translated from the
Rust source; OS-level effects (window operations, permission queries,
display attempts, filesystem checks, process spawning) are modelled as
explicit state or as oracle fields of an environment record, and the
sequence of attempted external effects is returned as an explicit trace.
-/

namespace Unpod

/-- Observable state of the main webview window through the three window
operations the app uses: the minimized, visible and focused flags. -/
structure WindowState where
  minimized : Bool
  visible : Bool
  focused : Bool
deriving DecidableEq, Repr

/-- Effect of the OS primitive behind window.unminimize: clears the minimized
flag and changes nothing else (idempotent at the OS level). -/
def unminimize (w : WindowState) : WindowState := { w with minimized := false }

/-- Effect of the OS primitive behind window.show: sets the visible flag and
changes nothing else (idempotent at the OS level). -/
def show_window (w : WindowState) : WindowState := { w with visible := true }

/-- Effect of the OS primitive behind window.set_focus: sets the focused flag
and changes nothing else (idempotent at the OS level). -/
def set_focus (w : WindowState) : WindowState := { w with focused := true }

/-- Embedding of activate_app_window (main.rs lines 157-175): when the main
window exists, run unminimize, then show, then set_focus, discarding each
fallible result with a wildcard binding so no error is surfaced; when the
window is absent, do nothing. -/
def activate_app_window : Option WindowState → Option WindowState
  | none => none
  | some w => some (set_focus (show_window (unminimize w)))

/-- The overlapping activation events wired in setup (main.rs lines 717-753):
the three notification-click listener names and the focus listener. -/
inductive ActivationEvent where
  | focusGained
  | notificationClicked (source : String)
deriving DecidableEq, Repr

/-- Every activation listener closure in setup forwards straight to
activate_app_window. -/
def handleActivation : ActivationEvent → Option WindowState → Option WindowState :=
  fun _ w => activate_app_window w

/-- C1: the shared window-activation operation is idempotent: activating twice,
or once per overlapping activation event (FocusGained / NotificationClicked in
either order), yields the same single fully-activated state (visible, focused,
unminimized) as activating once, with no error surfaced. -/
theorem claim_C1_activation_idempotent (w : WindowState) (e1 e2 : ActivationEvent) :
    activate_app_window (activate_app_window (some w)) = activate_app_window (some w)
  ∧ handleActivation e1 (handleActivation e2 (some w)) = activate_app_window (some w)
  ∧ activate_app_window (some w)
      = some { minimized := false, visible := true, focused := true } := by
  refine ⟨?_, ?_, ?_⟩ <;>
    simp [handleActivation, activate_app_window, set_focus, show_window, unminimize]

/-- The tri-state permission value observed from the OS notification
subsystem; the source matches Granted, Denied and a catch-all. -/
inductive PermissionState where
  | granted
  | denied
  | promptNeeded
deriving DecidableEq, Repr

/-- The distinct error cases of show_notification (main.rs lines 208-290); the
source produces four distinguishable format strings, modelled as constructors
carrying the formatted payload. -/
inductive NotifError where
  | queryFailed (msg : String)
  | requestFailed (msg : String)
  | permissionDenied (state : PermissionState)
  | displayError (msg : String)
deriving DecidableEq, Repr

/-- A display attempt actually performed against the OS notification
subsystem, recording the title and body handed to the builder. -/
inductive Attempt where
  | withIcon (title body iconPath : String)
  | noIcon (title body : String)
deriving DecidableEq, Repr

/-- Oracle outcomes of the external calls show_notification makes: the
permission query, the permission request, the icon path resolution (a fixed
path in a development build, resource-dir relative in production, where
resolving the resource dir can fail), the on-disk existence of that path, and
the outcome of each display attempt. -/
structure NotifEnv where
  permissionQuery : Except String PermissionState
  permissionRequest : Except String PermissionState
  iconPath : Except String String
  iconExists : Bool
  displayWithIconResult : Except String Unit
  displayNoIconResult : Except String Unit

/-- Embedding of the icon_result closure (main.rs lines 236-263): resolve the
icon path, check that it exists, and if so attempt display with the icon;
a missing file yields the error the closure builds from the fixed message. -/
def iconAttempt (env : NotifEnv) (title body : String) :
    Except String Unit × List Attempt :=
  match env.iconPath with
  | .error e => (.error e, [])
  | .ok p =>
    if env.iconExists then
      (env.displayWithIconResult, [.withIcon title body p])
    else
      (.error "Icon file not found", [])

/-- Embedding of show_notification (main.rs lines 208-290): query the current
permission state (propagating a query failure), request permission, fail with
the permission-denied message when the requested state is not Granted, then
try the icon attempt and fall back to a no-icon display of the same title and
body; the display-error message is produced only when the fallback fails. The
second component is the trace of display attempts performed. -/
def show_notification (env : NotifEnv) (title body : String) :
    Except NotifError Unit × List Attempt :=
  match env.permissionQuery with
  | .error e => (.error (.queryFailed e), [])
  | .ok _ =>
    match env.permissionRequest with
    | .error e => (.error (.requestFailed e), [])
    | .ok st =>
      if st = .granted then
        let r := iconAttempt env title body
        match r.1 with
        | .ok _ => (.ok (), r.2)
        | .error _ =>
          match env.displayNoIconResult with
          | .ok _ => (.ok (), r.2 ++ [.noIcon title body])
          | .error e => (.error (.displayError e), r.2 ++ [.noIcon title body])
      else
        (.error (.permissionDenied st), [])

/-- C2: for every title and body, show_notification requests permission before
any display, and when the requested permission state is anything other than
Granted it fails with the permission-denied error and performs no display
attempt at all (empty attempt trace). -/
theorem claim_C2_permission_gate (env : NotifEnv) (title body : String)
    (q st : PermissionState)
    (hq : env.permissionQuery = .ok q)
    (hr : env.permissionRequest = .ok st)
    (hst : st ≠ .granted) :
    show_notification env title body = (.error (.permissionDenied st), []) := by
  simp [show_notification, hq, hr, hst]

/-- Witness for C2 at a concrete environment whose permission request
resolves to Denied. -/
theorem claim_C2_permission_gate_witness :
    show_notification
        ⟨.ok .denied, .ok .denied, .ok "icons/icon.png", true, .ok (), .ok ()⟩
        "title" "body"
      = (.error (.permissionDenied .denied), []) :=
  claim_C2_permission_gate _ "title" "body" .denied .denied rfl rfl (by decide)

/-- C3: with permission Granted, when the resolved icon path does not exist on
disk or the with-icon display fails, show_notification falls back to a no-icon
display of the same title and body (the last attempt in the trace), and the
overall outcome is exactly the fallback's outcome: success when the fallback
succeeds, the display error only when the fallback also fails. -/
theorem claim_C3_icon_fallback (env : NotifEnv) (title body p : String)
    (hq : ∃ q, env.permissionQuery = .ok q)
    (hr : env.permissionRequest = .ok .granted)
    (hp : env.iconPath = .ok p)
    (hfail : env.iconExists = false ∨ ∃ e, env.displayWithIconResult = .error e) :
    (show_notification env title body).2.getLast? = some (.noIcon title body)
  ∧ (show_notification env title body).1
      = (match env.displayNoIconResult with
         | .ok _ => .ok ()
         | .error e => .error (.displayError e)) := by
  obtain ⟨q, hq⟩ := hq
  rcases hfail with hfail | ⟨e, hfail⟩ <;>
    cases hni : env.displayNoIconResult <;>
      cases hie : env.iconExists <;>
        simp_all [show_notification, iconAttempt]

/-- Witness for C3 at a concrete environment with a resolved but missing icon
path and a successful no-icon fallback. -/
theorem claim_C3_icon_fallback_witness :
    (show_notification
        ⟨.ok .granted, .ok .granted, .ok "icons/icon.png", false, .ok (), .ok ()⟩
        "title" "body").2.getLast? = some (.noIcon "title" "body")
  ∧ (show_notification
        ⟨.ok .granted, .ok .granted, .ok "icons/icon.png", false, .ok (), .ok ()⟩
        "title" "body").1
      = (match (Except.ok () : Except String Unit) with
         | .ok _ => .ok ()
         | .error e => .error (.displayError e)) :=
  claim_C3_icon_fallback _ "title" "body" "icons/icon.png"
    ⟨.granted, rfl⟩ rfl rfl (Or.inl rfl)

/-- Associativity of string concatenation, used to normalise the formatted
tooltip text. -/
theorem stringAppendAssoc (a b c : String) : a ++ b ++ c = a ++ (b ++ c) := by
  apply String.ext
  simp [String.data_append, List.append_assoc]

/-- The tray tooltip text computed by update_notification_badge (main.rs lines
303-309): the format string appends a plural s exactly when count exceeds 1. -/
def tooltipFor (count : Nat) : String :=
  if count > 0 then
    "Unpod - " ++ toString count ++ " unread notification"
      ++ (if count > 1 then "s" else "")
  else
    "Unpod"

/-- The window title text computed by update_notification_badge (main.rs lines
313-319). -/
def titleFor (count : Nat) : String :=
  if count > 0 then "(" ++ toString count ++ ") Unpod" else "Unpod"

/-- The OS badge value computed by update_notification_badge (main.rs lines
321-325): none clears the badge, some sets it to the count widened to i64. -/
def badgeFor (count : Nat) : Option Int :=
  if count > 0 then some (count : Int) else none

/-- Oracle fields for update_notification_badge: whether the tray handle and
the main window handle resolve, and the outcomes of the three surface calls.
The source discards each outcome (wildcard binding for the tooltip and title
setters, a logged-and-ignored branch for the badge setter), so the outcome
fields never influence the result. -/
structure BadgeEnv where
  trayExists : Bool
  windowExists : Bool
  setTooltipResult : Except String Unit
  setTitleResult : Except String Unit
  setBadgeResult : Except String Unit

/-- The three observable surfaces after a badge update: each is none when the
corresponding handle was absent, otherwise the value handed to the setter. -/
structure Surfaces where
  tooltip : Option String
  title : Option String
  badge : Option (Option Int)
deriving DecidableEq, Repr

/-- Embedding of update_notification_badge (main.rs lines 293-331): store the
count in the shared state, then independently and best-effort update the tray
tooltip (when the tray handle resolves) and the window title and OS badge
(when the main window resolves); every setter failure is discarded and the
command always returns Ok. The result is the command outcome, the recorded
count, and the attempted surface values. -/
def update_notification_badge (count : Nat) (env : BadgeEnv) :
    Except String Unit × Nat × Surfaces :=
  let tooltip := if env.trayExists then some (tooltipFor count) else none
  let title := if env.windowExists then some (titleFor count) else none
  let badge := if env.windowExists then some (badgeFor count) else none
  (.ok (), count, ⟨tooltip, title, badge⟩)

/-- C8: with the tray and main window present, updating the badge sets the
three surfaces deterministically from the count: tooltip Unpod at zero, the
singular wording at one, the plural wording above one; title Unpod at zero and
the parenthesised count otherwise; OS badge cleared at zero and set to the
count otherwise. -/
theorem claim_C8_badge_surfaces (c : Nat) (env : BadgeEnv)
    (ht : env.trayExists = true) (hw : env.windowExists = true) :
    (update_notification_badge c env).2.2.tooltip
      = some (if c = 0 then "Unpod"
              else if c = 1 then "Unpod - 1 unread notification"
              else "Unpod - " ++ toString c ++ " unread notifications")
  ∧ (update_notification_badge c env).2.2.title
      = some (if c = 0 then "Unpod" else "(" ++ toString c ++ ") Unpod")
  ∧ (update_notification_badge c env).2.2.badge
      = some (if c = 0 then none else some (c : Int)) := by
  refine ⟨?_, ?_, ?_⟩ <;>
    simp only [update_notification_badge, ht, hw, if_true] <;>
      match c with
      | 0 => rfl
      | 1 => rfl
      | n + 2 =>
        simp [tooltipFor, titleFor, badgeFor, stringAppendAssoc]

/-- Witness for C8 at count 5 with both handles present. -/
theorem claim_C8_badge_surfaces_witness :
    (update_notification_badge 5 ⟨true, true, .ok (), .ok (), .ok ()⟩).2.2.tooltip
      = some (if 5 = 0 then "Unpod"
              else if 5 = 1 then "Unpod - 1 unread notification"
              else "Unpod - " ++ toString 5 ++ " unread notifications")
  ∧ (update_notification_badge 5 ⟨true, true, .ok (), .ok (), .ok ()⟩).2.2.title
      = some (if 5 = 0 then "Unpod" else "(" ++ toString 5 ++ ") Unpod")
  ∧ (update_notification_badge 5 ⟨true, true, .ok (), .ok (), .ok ()⟩).2.2.badge
      = some (if 5 = 0 then none else some ((5 : Nat) : Int)) :=
  claim_C8_badge_surfaces 5 ⟨true, true, .ok (), .ok (), .ok ()⟩ rfl rfl

/-- C10: for every count and every environment, the update-badge command
returns Ok, records the count in the shared state, and attempts each surface
independently: the tooltip depends only on the tray handle, the title and
badge only on the window handle, and no setter failure influences anything. -/
theorem claim_C10_badge_best_effort (c : Nat) (env : BadgeEnv) :
    (update_notification_badge c env).1 = .ok ()
  ∧ (update_notification_badge c env).2.1 = c
  ∧ (update_notification_badge c env).2.2.tooltip
      = (if env.trayExists then some (tooltipFor c) else none)
  ∧ (update_notification_badge c env).2.2.title
      = (if env.windowExists then some (titleFor c) else none)
  ∧ (update_notification_badge c env).2.2.badge
      = (if env.windowExists then some (badgeFor c) else none) := by
  refine ⟨rfl, rfl, rfl, rfl, rfl⟩

/-- The durable blob behind the session commands: a string-to-string
association, first match wins on lookup. -/
abbrev Store := List (String × String)

/-- Lookup as performed by store.get followed by as_str: the value of the
first entry with the requested key. -/
def store_get (s : Store) (k : String) : Option String :=
  match s.find? (fun p => p.1 == k) with
  | some p => some p.2
  | none => none

/-- Effect of store.set: the key now maps to the value, every other key is
untouched. -/
def store_set (s : Store) (k v : String) : Store :=
  (k, v) :: s.filter (fun p => !(p.1 == k))

/-- Effect of store.delete: every entry with the key is removed. -/
def store_delete (s : Store) (k : String) : Store :=
  s.filter (fun p => !(p.1 == k))

/-- Effect of store.clear: the store becomes empty. -/
def store_clear (_ : Store) : Store := []

/-- Oracle outcomes of the fallible external steps of every session command:
opening the store file and persisting it with save. -/
structure SessionEnv where
  openResult : Except String Unit
  saveResult : Except String Unit

/-- Embedding of session_get (main.rs lines 60-69): open the store
(propagating a failure as a string) and read the key. -/
def session_get (env : SessionEnv) (s : Store) (k : String) :
    Except String (Option String) :=
  match env.openResult with
  | .error e => .error e
  | .ok _ => .ok (store_get s k)

/-- Embedding of session_set (main.rs lines 71-79): open the store, write the
key, save synchronously (propagating a save failure), and return true. -/
def session_set (env : SessionEnv) (s : Store) (k v : String) :
    Except String (Bool × Store) :=
  match env.openResult with
  | .error e => .error e
  | .ok _ =>
    match env.saveResult with
    | .error e => .error e
    | .ok _ => .ok (true, store_set s k v)

/-- Embedding of session_delete (main.rs lines 81-89): open the store, delete
the key, save synchronously, and return true. -/
def session_delete (env : SessionEnv) (s : Store) (k : String) :
    Except String (Bool × Store) :=
  match env.openResult with
  | .error e => .error e
  | .ok _ =>
    match env.saveResult with
    | .error e => .error e
    | .ok _ => .ok (true, store_delete s k)

/-- Embedding of session_clear (main.rs lines 91-99): open the store, clear
it, save synchronously, and return true. -/
def session_clear (env : SessionEnv) (s : Store) :
    Except String (Bool × Store) :=
  match env.openResult with
  | .error e => .error e
  | .ok _ =>
    match env.saveResult with
    | .error e => .error e
    | .ok _ => .ok (true, store_clear s)

/-- Looking a key up in a store from which every entry with that key was
filtered out yields nothing. -/
theorem store_get_filter_ne (s : Store) (k : String) :
    store_get (s.filter (fun p => !(p.1 == k))) k = none := by
  induction s with
  | nil => rfl
  | cons p t ih =>
    by_cases h : p.1 == k
    · simpa [store_get, List.filter, h] using ih
    · simpa [store_get, List.filter, List.find?, h] using ih

/-- C9: session-store round trip under successful open and save: set then get
returns the value just set, delete then get returns nothing, and after clear
a get of any key at all returns nothing. -/
theorem claim_C9_session_roundtrip (env : SessionEnv) (s : Store) (k v j : String)
    (ho : env.openResult = .ok ())
    (hs : env.saveResult = .ok ()) :
    session_set env s k v = .ok (true, store_set s k v)
  ∧ session_get env (store_set s k v) k = .ok (some v)
  ∧ session_delete env s k = .ok (true, store_delete s k)
  ∧ session_get env (store_delete s k) k = .ok none
  ∧ session_clear env s = .ok (true, store_clear s)
  ∧ session_get env (store_clear s) j = .ok none := by
  refine ⟨?_, ?_, ?_, ?_, ?_, ?_⟩
  · simp [session_set, ho, hs]
  · simp [session_get, ho, store_set, store_get, List.find?]
  · simp [session_delete, ho, hs]
  · simpa [session_get, ho, store_delete] using store_get_filter_ne s k
  · simp [session_clear, ho, hs]
  · simp [session_get, ho, store_clear, store_get]

/-- Witness for C9 at a concrete one-entry store with succeeding open and
save oracles. -/
theorem claim_C9_session_roundtrip_witness :
    session_set ⟨.ok (), .ok ()⟩ [("old", "x")] "k" "v"
        = .ok (true, store_set [("old", "x")] "k" "v")
  ∧ session_get ⟨.ok (), .ok ()⟩ (store_set [("old", "x")] "k" "v") "k"
        = .ok (some "v")
  ∧ session_delete ⟨.ok (), .ok ()⟩ [("old", "x")] "k"
        = .ok (true, store_delete [("old", "x")] "k")
  ∧ session_get ⟨.ok (), .ok ()⟩ (store_delete [("old", "x")] "k") "k"
        = .ok none
  ∧ session_clear ⟨.ok (), .ok ()⟩ [("old", "x")]
        = .ok (true, store_clear [("old", "x")])
  ∧ session_get ⟨.ok (), .ok ()⟩ (store_clear [("old", "x")]) "old"
        = .ok none :=
  claim_C9_session_roundtrip ⟨.ok (), .ok ()⟩ [("old", "x")] "k" "v" "old" rfl rfl

/-- The closed variant of target OS families distinguished by the supervisor's
cfg branches. -/
inductive OsFamily where
  | macos
  | windows
  | linux
deriving DecidableEq, Repr

/-- A filesystem path as its list of segments; join appends one segment and
parent drops the last one, failing on an empty path as Rust parent does at a
root. -/
abbrev FsPath := List String

/-- Effect of PathBuf join with a single segment. -/
def joinPath (p : FsPath) (s : String) : FsPath := p ++ [s]

/-- Effect of Path parent: none when there is no containing directory. -/
def parentPath (p : FsPath) : Option FsPath :=
  match p with
  | [] => none
  | _ => some p.dropLast

/-- The child-process invocation built by start_server in production: program
path, argument paths, working directory, environment variables, and whether
each standard stream is discarded. -/
structure SpawnSpec where
  program : FsPath
  args : List FsPath
  currentDir : FsPath
  envVars : List (String × String)
  stdoutNull : Bool
  stderrNull : Bool
deriving DecidableEq, Repr

/-- The distinct failure cases of start_server in production (main.rs lines
541-606), one per early return. -/
inductive StartupError where
  | resourceDirError (msg : String)
  | serverDirNotFound (dir : FsPath)
  | parentDirError
  | currentExeError (msg : String)
  | exeDirError
  | nodeNotFound (p : FsPath)
  | spawnFailed (msg : String)
deriving DecidableEq, Repr

/-- External effects performed by start_server, in order: querying the
resource directory, checking a path's existence, querying the current
executable path, spawning a child, and the fixed settle sleep. -/
inductive Effect where
  | queryResourceDir
  | checkExists (p : FsPath)
  | queryCurrentExe
  | spawnProc (s : SpawnSpec)
  | sleepSecs (n : Nat)
deriving DecidableEq, Repr

/-- Oracle outcomes of the external calls start_server makes in production:
resolving the resource directory, the existence of the server directory,
resolving the current executable (Windows only), the existence of the node
binary, and the spawn outcome (the child pid on success). -/
structure ProdEnv where
  resourceDir : Except String FsPath
  serverDirExists : Bool
  currentExe : Except String FsPath
  nodeExists : Bool
  spawnResult : SpawnSpec → Except String Nat

/-- Embedding of the platform-conditional node-path resolution in start_server
(main.rs lines 558-575): macOS uses the MacOS sibling of the resource
directory, Windows puts node.exe next to the current executable, Linux keeps
node inside the resource directory. The second component is the trace of
external queries this step performs. -/
def resolveNodePath (os : OsFamily) (rd : FsPath) (env : ProdEnv) :
    Except StartupError FsPath × List Effect :=
  match os with
  | .macos =>
    (match parentPath rd with
     | none => .error .parentDirError
     | some parent => .ok (joinPath (joinPath parent "MacOS") "node"), [])
  | .windows =>
    (match env.currentExe with
     | .error e => (.error (.currentExeError e), [.queryCurrentExe])
     | .ok exe =>
       match parentPath exe with
       | none => (.error .exeDirError, [.queryCurrentExe])
       | some d => (.ok (joinPath d "node.exe"), [.queryCurrentExe]))
  | .linux => (.ok (joinPath rd "node"), [])

/-- Embedding of the production branch of start_server (main.rs lines
541-606): resolve the resource directory, fail when the server directory does
not exist, resolve the node binary path per platform, fail when it does not
exist, spawn it with the server script argument, the server directory as
working directory, NODE_ENV=production and PORT=3000, both standard streams
discarded, then sleep the fixed two-second settle interval and return the
child pid. -/
def start_server_prod (os : OsFamily) (env : ProdEnv) :
    Except StartupError Nat × List Effect :=
  match env.resourceDir with
  | .error e => (.error (.resourceDirError e), [.queryResourceDir])
  | .ok rd =>
    let serverDir := joinPath rd "server"
    let pre : List Effect := [.queryResourceDir, .checkExists serverDir]
    if env.serverDirExists then
      let np := resolveNodePath os rd env
      match np.1 with
      | .error err => (.error err, pre ++ np.2)
      | .ok nodePath =>
        let pre2 := pre ++ np.2 ++ [.checkExists nodePath]
        if env.nodeExists then
          let serverScript := joinPath serverDir "server.js"
          let spawn : SpawnSpec :=
            { program := nodePath
              args := [serverScript]
              currentDir := serverDir
              envVars := [("NODE_ENV", "production"), ("PORT", "3000")]
              stdoutNull := true
              stderrNull := true }
          match env.spawnResult spawn with
          | .error e => (.error (.spawnFailed e), pre2 ++ [.spawnProc spawn])
          | .ok pid => (.ok pid, pre2 ++ [.spawnProc spawn, .sleepSecs 2])
        else
          (.error (.nodeNotFound nodePath), pre2)
    else
      (.error (.serverDirNotFound serverDir), pre)

/-- The two build configurations selected by the compile-time cfg on
debug_assertions. -/
inductive BuildMode where
  | development
  | production
deriving DecidableEq, Repr

/-- Embedding of start_server (main.rs lines 529-606): a development build
returns the sentinel pid 0 at once with no external effect; a production
build runs the production path. -/
def start_server (mode : BuildMode) (os : OsFamily) (env : ProdEnv) :
    Except StartupError Nat × List Effect :=
  match mode with
  | .development => (.ok 0, [])
  | .production => start_server_prod os env

/-- Spec-side statement of the three platform path-resolution rules: macOS a
sibling MacOS directory of the resource dir, Windows node.exe next to the
executable, Linux inside the resource dir. Stated from the spec's words for
comparison with resolveNodePath. -/
def specNodePath (os : OsFamily) (rd prd exeD : FsPath) : FsPath :=
  match os with
  | .macos => joinPath (joinPath prd "MacOS") "node"
  | .windows => joinPath exeD "node.exe"
  | .linux => joinPath rd "node"

/-- Spec-side statement of the production spawn: the resolved binary run with
the server script, the server directory as working directory, the production
environment marker, the fixed port 3000, and discarded standard streams. -/
def specSpawn (os : OsFamily) (rd prd exeD : FsPath) : SpawnSpec :=
  { program := specNodePath os rd prd exeD
    args := [joinPath (joinPath rd "server") "server.js"]
    currentDir := joinPath rd "server"
    envVars := [("NODE_ENV", "production"), ("PORT", "3000")]
    stdoutNull := true
    stderrNull := true }

/-- The external-effect prefix of a successful production start: resource-dir
query, server-dir existence check, the executable query on Windows, and the
node-binary existence check. -/
def specTrace (os : OsFamily) (rd prd exeD : FsPath) : List Effect :=
  [.queryResourceDir, .checkExists (joinPath rd "server")]
    ++ (match os with | .windows => [.queryCurrentExe] | _ => [])
    ++ [.checkExists (specNodePath os rd prd exeD)]

/-- C6: in production, start fails when the server directory under the
resource dir does not exist; otherwise it resolves the runtime binary by the
three platform rules, fails when that binary does not exist, and otherwise
spawns it with discarded streams, NODE_ENV=production and PORT=3000, waits
the fixed two-second settle interval, and returns the pid the spawn
produced. -/
theorem claim_C6_production_start (os : OsFamily) (rd prd exe exeD : FsPath)
    (spawnRes : SpawnSpec → Except String Nat)
    (hprd : parentPath rd = some prd)
    (hexeD : parentPath exe = some exeD) :
    (start_server .production os ⟨.ok rd, false, .ok exe, true, spawnRes⟩).1
        = .error (.serverDirNotFound (joinPath rd "server"))
  ∧ (start_server .production os ⟨.ok rd, true, .ok exe, false, spawnRes⟩).1
        = .error (.nodeNotFound (specNodePath os rd prd exeD))
  ∧ start_server .production os ⟨.ok rd, true, .ok exe, true, spawnRes⟩
        = (match spawnRes (specSpawn os rd prd exeD) with
           | .ok pid =>
             (.ok pid, specTrace os rd prd exeD
               ++ [.spawnProc (specSpawn os rd prd exeD), .sleepSecs 2])
           | .error e =>
             (.error (.spawnFailed e), specTrace os rd prd exeD
               ++ [.spawnProc (specSpawn os rd prd exeD)])) := by
  refine ⟨?_, ?_, ?_⟩
  · cases os <;>
      simp [start_server, start_server_prod, resolveNodePath, hprd, hexeD]
  · cases os <;>
      simp [start_server, start_server_prod, resolveNodePath, specNodePath,
        hprd, hexeD]
  · cases os
    case macos =>
      cases hsp : spawnRes (specSpawn .macos rd prd exeD) <;>
        simp only [specSpawn, specNodePath, specTrace] at hsp ⊢ <;>
          simp [start_server, start_server_prod, resolveNodePath, hprd, hexeD, hsp]
    case windows =>
      cases hsp : spawnRes (specSpawn .windows rd prd exeD) <;>
        simp only [specSpawn, specNodePath, specTrace] at hsp ⊢ <;>
          simp [start_server, start_server_prod, resolveNodePath, hprd, hexeD, hsp]
    case linux =>
      cases hsp : spawnRes (specSpawn .linux rd prd exeD) <;>
        simp only [specSpawn, specNodePath, specTrace] at hsp ⊢ <;>
          simp [start_server, start_server_prod, resolveNodePath, hprd, hexeD, hsp]

/-- Witness for C6 on macOS with concrete paths and a spawn oracle returning
pid 41. -/
theorem claim_C6_production_start_witness :
    (start_server .production .macos
        ⟨.ok ["App", "Resources"], false, .ok ["C:", "app.exe"], true,
          fun _ => .ok 41⟩).1
        = .error (.serverDirNotFound (joinPath ["App", "Resources"] "server"))
  ∧ (start_server .production .macos
        ⟨.ok ["App", "Resources"], true, .ok ["C:", "app.exe"], false,
          fun _ => .ok 41⟩).1
        = .error (.nodeNotFound (specNodePath .macos ["App", "Resources"] ["App"] ["C:"]))
  ∧ start_server .production .macos
        ⟨.ok ["App", "Resources"], true, .ok ["C:", "app.exe"], true,
          fun _ => .ok 41⟩
        = (match (fun (_ : SpawnSpec) => (Except.ok 41 : Except String Nat))
                (specSpawn .macos ["App", "Resources"] ["App"] ["C:"]) with
           | .ok pid =>
             (.ok pid, specTrace .macos ["App", "Resources"] ["App"] ["C:"]
               ++ [.spawnProc (specSpawn .macos ["App", "Resources"] ["App"] ["C:"]),
                   .sleepSecs 2])
           | .error e =>
             (.error (.spawnFailed e), specTrace .macos ["App", "Resources"] ["App"] ["C:"]
               ++ [.spawnProc (specSpawn .macos ["App", "Resources"] ["App"] ["C:"])])) :=
  claim_C6_production_start .macos ["App", "Resources"] ["App"] ["C:", "app.exe"] ["C:"]
    (fun _ => .ok 41) rfl rfl

/-- C7: in a development build, start returns the sentinel pid 0 immediately
with an empty external-effect trace: no filesystem resolution, no existence
check, no spawn, no sleep, whatever the environment. -/
theorem claim_C7_development_sentinel (os : OsFamily) (env : ProdEnv) :
    start_server .development os env = (.ok 0, []) := rfl

/-- An external process-control command: program name and arguments. -/
structure ProcCmd where
  program : String
  args : List String
deriving DecidableEq, Repr

/-- The command stop_server spawns for a given platform and pid (main.rs
lines 616-630): taskkill /PID pid /F on Windows, kill pid elsewhere; none
when pid is the sentinel 0, which returns before any command. -/
def stop_server_cmd (os : OsFamily) (pid : Nat) : Option ProcCmd :=
  if pid = 0 then none
  else
    some (match os with
      | .windows => ⟨"taskkill", ["/PID", toString pid, "/F"]⟩
      | _ => ⟨"kill", [toString pid]⟩)

/-- Embedding of stop_server (main.rs lines 609-633): return at once on the
sentinel pid, otherwise spawn the platform command and discard its outcome
with a wildcard binding. The Rust function returns unit, so there is no error
channel; the model returns the spawned command (if any) as the trace. -/
def stop_server (os : OsFamily) (pid : Nat)
    (outcome : ProcCmd → Except String Unit) : Option ProcCmd :=
  match stop_server_cmd os pid with
  | none => none
  | some c =>
    let _ := outcome c
    some c

/-- The termination signals the two spawned commands can deliver. -/
inductive TermSignal where
  | sigterm
  | sigkill
  | winForceKill
deriving DecidableEq, Repr

/-- Whether the target process can catch and handle the signal: SIGTERM is
catchable (the conventional graceful-termination request), SIGKILL and a
Windows forced kill are not. -/
def TermSignal.catchable : TermSignal → Bool
  | .sigterm => true
  | .sigkill => false
  | .winForceKill => false

/-- Modelled from the documented semantics of the external tools the
supervisor spawns (not repository code): the kill utility invoked with no
explicit signal option sends SIGTERM per POSIX; kill -9 or kill -KILL sends
SIGKILL; taskkill terminates forcibly exactly when the /F flag is present. -/
def sentSignal (c : ProcCmd) : Option TermSignal :=
  if c.program = "taskkill" then
    (if c.args.contains "/F" then some .winForceKill else none)
  else if c.program = "kill" then
    (match c.args with
     | ["-9", _] => some .sigkill
     | ["-KILL", _] => some .sigkill
     | [_] => some .sigterm
     | _ => none)
  else none

/-- A command is a forceful termination when the signal it delivers cannot be
caught by the target. -/
def forcefulSignal (c : ProcCmd) : Bool :=
  match sentSignal c with
  | some s => !s.catchable
  | none => false

/-- Counterexample to C4: on Linux with pid 42 the supervisor spawns kill 42,
which delivers the default SIGTERM, a catchable signal and therefore a
graceful-termination request rather than a forceful kill. -/
theorem claim_C4_counterexample :
    stop_server_cmd .linux 42 = some ⟨"kill", ["42"]⟩
  ∧ sentSignal ⟨"kill", ["42"]⟩ = some .sigterm
  ∧ TermSignal.catchable .sigterm = true
  ∧ forcefulSignal ⟨"kill", ["42"]⟩ = false := by
  refine ⟨rfl, by decide, rfl, by decide⟩

/-- C4 as amended: for every pid other than the sentinel, stop spawns a
termination command against the recorded pid on every platform, and that
command delivers a termination signal; the signal is forceful (uncatchable)
exactly on Windows, while the Unix-family platforms send the kill default
SIGTERM, which the target may catch. -/
theorem claim_C4_amended_termination_signal (os : OsFamily) (pid : Nat)
    (h : pid ≠ 0) :
    stop_server_cmd os pid
      = some (match os with
          | .windows => ⟨"taskkill", ["/PID", toString pid, "/F"]⟩
          | _ => ⟨"kill", [toString pid]⟩)
  ∧ (sentSignal (match os with
          | .windows => ⟨"taskkill", ["/PID", toString pid, "/F"]⟩
          | _ => ⟨"kill", [toString pid]⟩)).isSome = true
  ∧ (forcefulSignal (match os with
          | .windows => (⟨"taskkill", ["/PID", toString pid, "/F"]⟩ : ProcCmd)
          | _ => ⟨"kill", [toString pid]⟩) = true
        ↔ os = .windows) := by
  cases os <;>
    simp [stop_server_cmd, sentSignal, forcefulSignal, TermSignal.catchable,
      List.contains, h]

/-- Witness for the amended C4 on Windows at pid 7. -/
theorem claim_C4_amended_termination_signal_witness :
    stop_server_cmd .windows 7
      = some (match OsFamily.windows with
          | .windows => ⟨"taskkill", ["/PID", toString 7, "/F"]⟩
          | _ => ⟨"kill", [toString 7]⟩)
  ∧ (sentSignal (match OsFamily.windows with
          | .windows => ⟨"taskkill", ["/PID", toString 7, "/F"]⟩
          | _ => ⟨"kill", [toString 7]⟩)).isSome = true
  ∧ (forcefulSignal (match OsFamily.windows with
          | .windows => (⟨"taskkill", ["/PID", toString 7, "/F"]⟩ : ProcCmd)
          | _ => ⟨"kill", [toString 7]⟩) = true
        ↔ OsFamily.windows = .windows) :=
  claim_C4_amended_termination_signal .windows 7 (by decide)

/-- C5: stop never surfaces an error: its result is the same whatever the
outcome of the spawned command (failures are swallowed), the sentinel pid
spawns nothing, and every other pid spawns exactly one command. -/
theorem claim_C5_stop_never_fails (os : OsFamily) (pid : Nat)
    (o1 o2 : ProcCmd → Except String Unit) :
    stop_server os pid o1 = stop_server os pid o2
  ∧ stop_server os 0 o1 = none
  ∧ (stop_server os (pid + 1) o1).isSome = true := by
  refine ⟨rfl, rfl, ?_⟩
  cases os <;> simp [stop_server, stop_server_cmd]

end Unpod
